import Mathlib

/-!
Verification of the Cadastro-Lead-API backend (src/index.js).

The file embeds the JavaScript code shallowly:

* JavaScript field values are modelled by the inductive type JSVal
  (strings, numbers as integers, booleans, null, undefined); this covers
  every value the validation code distinguishes.
* A thrown TypeError (calling .trim() on a truthy non-string) is modelled
  by Except.error (); fallible functions return Except Unit.
* The Mongo store is modelled by a list of stored leads; a storage-layer
  failure is modelled by the database argument being Except.error ().
* The two regular expressions of the source are implemented as executable
  matchers over character lists, translated construct by construct.
-/

namespace LeadAPI

/-- A JavaScript value, as far as the validation code distinguishes values. -/
inductive JSVal where
  | str (s : String)
  | num (n : Int)
  | bool (b : Bool)
  | null
  | undefined
  deriving DecidableEq, Repr

/-- JavaScript truthiness for the modelled values. -/
def truthy : JSVal → Bool
  | .str s => s ≠ ""
  | .num n => n ≠ 0
  | .bool b => b
  | .null => false
  | .undefined => false

/-- The character class matched by the JavaScript regex class backslash-s
(whitespace), also the set stripped by String.prototype.trim. -/
def isJsSpace (c : Char) : Bool :=
  c = ' ' || c = '\t' || c = '\n' || c = '\u000B' || c = '\u000C' || c = '\r' ||
  c = '\u00A0' || c = '\u1680' ||
  ('\u2000' ≤ c && c ≤ '\u200A') ||
  c = '\u2028' || c = '\u2029' || c = '\u202F' || c = '\u205F' ||
  c = '\u3000' || c = '\uFEFF'

/-- JavaScript String.prototype.trim: strip leading and trailing whitespace. -/
def jsTrim (s : String) : String :=
  ⟨(s.toList.dropWhile isJsSpace).reverse.dropWhile isJsSpace |>.reverse⟩

/-- JavaScript String.prototype.toLowerCase, restricted to the ASCII mapping
(the regexes involved contain no letters, so only case-invariance matters). -/
def jsToLower (s : String) : String :=
  ⟨s.toList.map Char.toLower⟩

/-- JavaScript s.replace(regex backslash-s, empty string) with the global
flag: remove every whitespace character. -/
def jsStripSpaces (s : String) : String :=
  ⟨s.toList.filter (fun c => !isJsSpace c)⟩

/-- Characters allowed by the regex class excluding whitespace and the at
sign, written in the source as a negated class. -/
def emailOkChar (c : Char) : Bool :=
  !isJsSpace c && c ≠ '@'

/-- Decides the source email regex anchored at both ends: one or more
non-space non-at characters, an at sign, one or more such characters, a dot,
then two or more such characters.  Backtracking semantics force exactly one
at sign in the whole string; the domain part must contain a dot that is not
its first character and is followed by at least two characters. -/
def emailRegexTest (s : String) : Bool :=
  match s.toList.splitOn '@' with
  | [l, m] =>
    l ≠ [] && l.all emailOkChar && m.all emailOkChar &&
    (List.range m.length).any (fun i =>
      m.get? i = some '.' && 1 ≤ i && i + 3 ≤ m.length)
  | _ => false

/-- Match exactly n ASCII digits, returning the remainder. -/
def matchDigits : Nat → List Char → Option (List Char)
  | 0, cs => some cs
  | n + 1, c :: cs => if c.isDigit then matchDigits n cs else none
  | _ + 1, [] => none

/-- An optional single character of the given class: both the consuming and
the non-consuming continuation, in greedy order. -/
def matchOpt (p : Char → Bool) (cs : List Char) : List (List Char) :=
  match cs with
  | c :: rest => if p c then [rest, cs] else [cs]
  | [] => [[]]

/-- The tail of the phone regex: four digits, an optional hyphen, four
digits, end of input. -/
def phoneTail (cs : List Char) : Bool :=
  match matchDigits 4 cs with
  | none => false
  | some cs₂ =>
    (matchOpt (fun c => c = '-') cs₂).any (fun cs₃ =>
      match matchDigits 4 cs₃ with
      | some [] => true
      | _ => false)

/-- Decides the source phone regex anchored at both ends: optional opening
parenthesis, two digits, optional closing parenthesis, optional whitespace,
optional digit nine, four digits, optional hyphen, four digits. -/
def telefoneRegexTest (s : String) : Bool :=
  let cs := s.toList
  (matchOpt (fun c => c = '(') cs).any (fun cs₁ =>
    match matchDigits 2 cs₁ with
    | none => false
    | some cs₂ =>
      (matchOpt (fun c => c = ')') cs₂).any (fun cs₃ =>
        (matchOpt isJsSpace cs₃).any (fun cs₄ =>
          (matchOpt (fun c => c = '9') cs₄).any phoneTail)))

end LeadAPI

namespace LeadAPI

/-- A candidate lead as sent in a request body: each field is an arbitrary
JavaScript value, absent fields being undefined. -/
structure Candidate where
  nome : JSVal
  perfil : JSVal
  empresa : JSVal
  cargo : JSVal
  email : JSVal
  telefone : JSVal
  perguntaChecagem : JSVal
  perguntaGeral : JSVal
  adesao : JSVal
  LGPD : JSVal
  deriving DecidableEq, Repr

/-- The list of allowed profile values (source line 75). -/
def perfisValidos : List String := ["Estudante", "Executivo", "Empresário", "Investidor"]

/-- Source lines 76 to 79: the profile error condition.  The falsiness and
typeof checks reject every non-string; for strings the emptiness, trimmed
emptiness and list membership checks apply to the raw, untrimmed value. -/
def perfilInvalido (v : JSVal) : Bool :=
  match v with
  | .str s => s = "" || jsTrim s = "" || !(perfisValidos.contains s)
  | _ => true

/-- The three profile values that make empresa and cargo mandatory
(source line 82). -/
def perfisComEmpresa : List JSVal := [.str "Executivo", .str "Empresário", .str "Investidor"]

/-- Source lines 83 to 88: the empresa errors.  A falsy or non-string or
trim-empty value gives the mandatory-field error, otherwise a trimmed length
below three gives the length error. -/
def errosEmpresaDe (v : JSVal) : List String :=
  match v with
  | .str s =>
    if s = "" || jsTrim s = "" then ["Empresa é obrigatória para o perfil selecionado."]
    else if (jsTrim s).length < 3 then ["Empresa deve ter pelo menos 3 caracteres."]
    else []
  | _ => ["Empresa é obrigatória para o perfil selecionado."]

/-- Source lines 90 to 95: the cargo errors, same shape as empresa. -/
def errosCargoDe (v : JSVal) : List String :=
  match v with
  | .str s =>
    if s = "" || jsTrim s = "" then ["Cargo é obrigatório para o perfil selecionado."]
    else if (jsTrim s).length < 3 then ["Cargo deve ter pelo menos 3 caracteres."]
    else []
  | _ => ["Cargo é obrigatório para o perfil selecionado."]

/-- Source line 100: lead.email conditional-then-trim-then-lowercase.
A truthy non-string throws a TypeError at the trim call, modelled as
Except.error; a falsy value yields the empty string. -/
def emailTestDe (v : JSVal) : Except Unit String :=
  if truthy v then
    match v with
    | .str s => .ok (jsToLower (jsTrim s))
    | _ => .error ()
  else .ok ""

/-- Source lines 101 and 102: the email error condition, given the already
computed test string. -/
def emailInvalido (v : JSVal) (emailTest : String) : Bool :=
  match v with
  | .str s => s = "" || jsTrim s = "" || !(emailRegexTest emailTest)
  | _ => true

/-- Source line 109: lead.telefone conditional-then-trim-then-strip-spaces,
throwing on a truthy non-string. -/
def telefoneTestDe (v : JSVal) : Except Unit String :=
  if truthy v then
    match v with
    | .str s => .ok (jsStripSpaces (jsTrim s))
    | _ => .error ()
  else .ok ""

/-- Source lines 110 and 111: the telefone error condition. -/
def telefoneInvalido (v : JSVal) (telefoneTest : String) : Bool :=
  match v with
  | .str s => s = "" || jsTrim s = "" || !(telefoneRegexTest telefoneTest)
  | _ => true

/-- Source lines 116 and 117: the nome error condition. -/
def nomeInvalido (v : JSVal) : Bool :=
  match v with
  | .str s => s = "" || jsTrim s = "" || (jsTrim s).length < 3
  | _ => true

/-- Source lines 71 to 122, the function validarEtapa1.  Errors are pushed
in source order: perfil, empresa, cargo, email, telefone, nome.  The result
is Except.error when the code would throw a TypeError, which happens exactly
when email or telefone holds a truthy non-string. -/
def validarEtapa1 (lead : Candidate) : Except Unit (List String) :=
  let errosPerfil := if perfilInvalido lead.perfil then ["Perfil inválido ou não informado."] else []
  let errosEmpresaCargo :=
    if perfisComEmpresa.contains lead.perfil then
      errosEmpresaDe lead.empresa ++ errosCargoDe lead.cargo
    else []
  match emailTestDe lead.email with
  | .error e => .error e
  | .ok emailTest =>
    let errosEmail := if emailInvalido lead.email emailTest then ["Email é obrigatório e deve ser válido."] else []
    match telefoneTestDe lead.telefone with
    | .error e => .error e
    | .ok telefoneTest =>
      let errosTelefone :=
        if telefoneInvalido lead.telefone telefoneTest then
          ["Telefone é obrigatório e deve ser válido (formato brasileiro)."]
        else []
      let errosNome := if nomeInvalido lead.nome then ["Nome é obrigatório e deve ter pelo menos 3 caracteres."] else []
      .ok (errosPerfil ++ errosEmpresaCargo ++ errosEmail ++ errosTelefone ++ errosNome)

/-- Source line 129: the perguntaChecagem error condition.  A falsy value is
an error without touching trim; a truthy string is checked by trimmed
length; a truthy non-string throws at the trim call (there is no typeof
guard on this field). -/
def perguntaChecagemErro (v : JSVal) : Except Unit Bool :=
  if truthy v then
    match v with
    | .str s => .ok ((jsTrim s).length < 3)
    | _ => .error ()
  else .ok true

/-- Source lines 125 to 142, the function validarLead: the stage-one errors
followed by the check-question, adesao and LGPD errors. -/
def validarLead (lead : Candidate) : Except Unit (List String) :=
  match validarEtapa1 lead with
  | .error e => .error e
  | .ok erros =>
    match perguntaChecagemErro lead.perguntaChecagem with
    | .error e => .error e
    | .ok pcErro =>
      let erros := erros ++ (if pcErro then ["Responda a pergunta de checagem corretamente."] else [])
      let erros := erros ++ (if lead.adesao ≠ .bool true then ["É necessário concordar com o Termo de Adesão."] else [])
      let erros := erros ++ (if lead.LGPD ≠ .bool true then ["É necessário autorizar o uso dos dados (LGPD)."] else [])
      .ok erros

end LeadAPI

namespace LeadAPI

/-- A persisted lead document (schema at source lines 54 to 66).  The
schema-typed string fields keep the JSVal that was submitted (mongoose
receives them unchanged from the route); adesao and LGPD are booleans and
dataCadastro is the creation timestamp. -/
structure StoredLead where
  nome : JSVal
  perfil : JSVal
  empresa : JSVal
  cargo : JSVal
  email : JSVal
  telefone : JSVal
  perguntaChecagem : JSVal
  perguntaGeral : JSVal
  adesao : Bool
  LGPD : Bool
  dataCadastro : Nat
  deriving DecidableEq, Repr

/-- The store: Except.error models a storage layer whose queries throw;
Except.ok holds the list of persisted documents. -/
def Store := Except Unit (List StoredLead)

/-- Model of Lead.findOne on a single-field equality filter: the first
stored document satisfying the predicate, or a thrown error when the
storage layer is failing. -/
def findOne (db : Store) (p : StoredLead → Bool) : Except Unit (Option StoredLead) :=
  match db with
  | .error e => .error e
  | .ok leads => .ok (leads.find? p)

/-- Source lines 223 to 240, the duplicate checks of handleValidarEtapa1:
when email is truthy, query by exact email and push the email-duplicate
message on a hit; then the same for telefone.  Any query throw aborts with
the error (the catch block turns it into the 500 response). -/
def validacaoDuplicidade (email telefone : JSVal) (db : Store) : Except Unit (List String) :=
  match (if truthy email then findOne db (fun l => l.email = email) else .ok none) with
  | .error e => .error e
  | .ok emailExiste =>
    let erros₁ := match emailExiste with
      | some _ => ["Este e-mail já está participando da promoção."]
      | none => []
    match (if truthy telefone then findOne db (fun l => l.telefone = telefone) else .ok none) with
    | .error e => .error e
    | .ok telExiste =>
      let erros₂ := match telExiste with
        | some _ => ["Este telefone já está cadastrado."]
        | none => []
      .ok (erros₁ ++ erros₂)

/-- The HTTP outcome of the stage-one pre-check handler. -/
inductive HandlerResult where
  | badRequest (erros : List String)
  | serviceError (mensagem : String)
  | okMsg (mensagem : String)
  deriving DecidableEq, Repr

/-- Source line 213: the object built from only the six stage-one fields of
the body; the remaining fields are absent, hence undefined. -/
def etapa1Subset (body : Candidate) : Candidate :=
  { nome := body.nome, email := body.email, telefone := body.telefone,
    perfil := body.perfil, empresa := body.empresa, cargo := body.cargo,
    perguntaChecagem := .undefined, perguntaGeral := .undefined,
    adesao := .undefined, LGPD := .undefined }

/-- Source lines 209 to 249, the function handleValidarEtapa1: validate the
six stage-one fields, answer 400 on validation errors, otherwise run the
duplicate checks, answering 500 on a storage throw, 400 on duplicates, and
200 otherwise.  An Except.error result models a TypeError escaping the
handler (thrown outside its try block). -/
def handleValidarEtapa1 (body : Candidate) (db : Store) : Except Unit HandlerResult :=
  let leadEtapa1 := etapa1Subset body
  match validarEtapa1 leadEtapa1 with
  | .error e => .error e
  | .ok erros =>
    if erros.length > 0 then .ok (.badRequest erros)
    else
      match validacaoDuplicidade body.email body.telefone db with
      | .error _ => .ok (.serviceError "Erro ao validar duplicidade. Tente novamente mais tarde.")
      | .ok errosDup =>
        let erros := erros ++ errosDup
        if erros.length > 0 then .ok (.badRequest erros)
        else .ok (.okMsg "Etapa 1 válida. Pode prosseguir.")

/-- Source lines 156 to 167: the document built by new Lead.  Every field is
stored exactly as submitted; only adesao and LGPD are coerced with a double
negation, and dataCadastro defaults to the current time. -/
def novoLead (body : Candidate) (now : Nat) : StoredLead :=
  { nome := body.nome, perfil := body.perfil, empresa := body.empresa,
    cargo := body.cargo, email := body.email, telefone := body.telefone,
    perguntaChecagem := body.perguntaChecagem, perguntaGeral := body.perguntaGeral,
    adesao := truthy body.adesao, LGPD := truthy body.LGPD, dataCadastro := now }

/-- The HTTP outcome of the creation route. -/
inductive CreateResult where
  | badRequest (mensagem : String) (erros : List String)
  | created (lead : StoredLead)
  | serverError
  deriving DecidableEq, Repr

/-- Source lines 146 to 175, the POST leads route: validate the whole body,
answer 400 with the error list on failure (without touching the store),
otherwise build the document and save it; dbOk false models a save that
throws, answered with 500.  The returned list is the store after the
request. -/
def criarLead (body : Candidate) (store : List StoredLead) (dbOk : Bool) (now : Nat) :
    Except Unit (CreateResult × List StoredLead) :=
  match validarLead body with
  | .error e => .error e
  | .ok erros =>
    if erros.length > 0 then .ok (.badRequest "Erro de validação" erros, store)
    else
      let lead := novoLead body now
      if dbOk then .ok (.created lead, store ++ [lead])
      else .ok (.serverError, store)

/-- The HTTP outcome of the delete route. -/
inductive DeleteResult where
  | badRequest (mensagem : String)
  | notFound (mensagem : String)
  | okDeleted (mensagem : String) (lead : StoredLead)
  | serverError
  deriving DecidableEq, Repr

/-- mongoose.Types.ObjectId.isValid on a string argument: a string of
twelve UTF-16 units, or twenty-four hexadecimal digits. -/
def objectIdIsValid (id : String) : Bool :=
  id.length = 12 ||
  (id.length = 24 && id.toList.all (fun c =>
    c.isDigit || ('a' ≤ c && c ≤ 'f') || ('A' ≤ c && c ≤ 'F')))

/-- Source lines 188 to 205, the DELETE route: reject a structurally
invalid identifier with 400 before any store access, otherwise run
findByIdAndDelete (dbOk false models a throwing store, answered 500),
answer 404 when nothing matches, else 200 with the removed document.  The
store is a list of identifier-document pairs; the returned list is the
store after the request. -/
def removerLead (id : String) (store : List (String × StoredLead)) (dbOk : Bool) :
    DeleteResult × List (String × StoredLead) :=
  if !objectIdIsValid id then (.badRequest "ID inválido", store)
  else if !dbOk then (.serverError, store)
  else
    match store.find? (fun p => p.1 = id) with
    | none => (.notFound "Lead não encontrado", store)
    | some p =>
      (.okDeleted "Lead removido com sucesso" p.2, store.eraseP (fun q => q.1 = id))

/-- The handlers the application mounts. -/
inductive AppHandler where
  | hCriarLead
  | hListarLeads
  | hRemoverLead
  | hValidarEtapa1
  deriving DecidableEq, Repr

/-- A mounted route: method, path and handler. -/
structure Route where
  method : String
  path : String
  handler : AppHandler
  deriving DecidableEq, Repr

/-- The route registrations of the application, in source order: lines 146,
178, 188 and 251.  Line 251 is the only registration of the stage-one
pre-check handler. -/
def appRoutes : List Route :=
  [⟨"POST", "/leads", .hCriarLead⟩,
   ⟨"GET", "/leads", .hListarLeads⟩,
   ⟨"DELETE", "/leads/:id", .hRemoverLead⟩,
   ⟨"POST", "/leads/validar-etapa1", .hValidarEtapa1⟩]

/-- Test fixture: the stage-one payload of the spec end-to-end scenario. -/
def corpoEtapa1Valido : Candidate :=
  { nome := .str "Enrico Silva", perfil := .str "Estudante",
    empresa := .undefined, cargo := .undefined,
    email := .str "enrico@test.com", telefone := .str "11999998888",
    perguntaChecagem := .undefined, perguntaGeral := .undefined,
    adesao := .undefined, LGPD := .undefined }

/-- Test fixture: the full payload of the spec end-to-end scenario. -/
def corpoCompletoValido : Candidate :=
  { nome := .str "Enrico Silva", perfil := .str "Estudante",
    empresa := .undefined, cargo := .undefined,
    email := .str "enrico@test.com", telefone := .str "11999998888",
    perguntaChecagem := .str "azul", perguntaGeral := .str "nenhuma",
    adesao := .bool true, LGPD := .bool true }

/-- Test fixture: an entirely absent body. -/
def corpoVazio : Candidate :=
  { nome := .undefined, perfil := .undefined, empresa := .undefined,
    cargo := .undefined, email := .undefined, telefone := .undefined,
    perguntaChecagem := .undefined, perguntaGeral := .undefined,
    adesao := .undefined, LGPD := .undefined }

/-- Test fixture: a stored lead holding the same raw email as the
end-to-end payload. -/
def leadDuplicado : StoredLead :=
  { nome := .str "Outra Pessoa", perfil := .str "Estudante",
    empresa := .undefined, cargo := .undefined,
    email := .str "enrico@test.com", telefone := .str "11888887777",
    perguntaChecagem := .str "azul", perguntaGeral := .undefined,
    adesao := true, LGPD := true, dataCadastro := 0 }

/-- Test fixture: a stored lead whose email differs from the end-to-end
payload only in letter case and whose telefone differs only in surrounding
whitespace. -/
def leadCaixaAlta : StoredLead :=
  { nome := .str "Outra Pessoa", perfil := .str "Estudante",
    empresa := .undefined, cargo := .undefined,
    email := .str "ENRICO@TEST.COM", telefone := .str " 11999998888",
    perguntaChecagem := .str "azul", perguntaGeral := .undefined,
    adesao := true, LGPD := true, dataCadastro := 0 }

end LeadAPI

namespace LeadAPITests

open LeadAPI

example : emailRegexTest "enrico@test.com" = true := by decide
example : emailRegexTest "a@b.c" = false := by decide
example : telefoneRegexTest "11999998888" = true := by decide
example : telefoneRegexTest "123" = false := by decide
example : telefoneRegexTest "(11)99999-9999" = true := by decide
example : jsTrim "  Estudante " = "Estudante" := by decide
example : validarEtapa1 corpoEtapa1Valido = .ok [] := by rfl
example : validarLead corpoCompletoValido = .ok [] := by rfl
example : validarEtapa1 corpoVazio =
    .ok ["Perfil inválido ou não informado.", "Email é obrigatório e deve ser válido.",
         "Telefone é obrigatório e deve ser válido (formato brasileiro).",
         "Nome é obrigatório e deve ter pelo menos 3 caracteres."] := by rfl

end LeadAPITests

namespace LeadAPI

theorem mem_ite_nil {b : Bool} {x m : String} :
    (m ∈ if b then [x] else []) ↔ b = true ∧ m = x := by
  cases b <;> simp

theorem mem_ite_nil_prop {p : Prop} [Decidable p] {x m : String} :
    (m ∈ if p then [x] else []) ↔ p ∧ m = x := by
  split <;> simp_all

theorem mem_errosEmpresaDe {v : JSVal} {m : String} (h : m ∈ errosEmpresaDe v) :
    m = "Empresa é obrigatória para o perfil selecionado." ∨
    m = "Empresa deve ter pelo menos 3 caracteres." := by
  unfold errosEmpresaDe at h
  cases v <;> simp_all
  split at h <;> [skip; split at h] <;> simp_all

theorem mem_errosCargoDe {v : JSVal} {m : String} (h : m ∈ errosCargoDe v) :
    m = "Cargo é obrigatório para o perfil selecionado." ∨
    m = "Cargo deve ter pelo menos 3 caracteres." := by
  unfold errosCargoDe at h
  cases v <;> simp_all
  split at h <;> [skip; split at h] <;> simp_all

theorem validarEtapa1_ok_shape {c : Candidate} {l : List String}
    (h : validarEtapa1 c = .ok l) :
    ∃ et tt, emailTestDe c.email = .ok et ∧ telefoneTestDe c.telefone = .ok tt ∧
      l = (if perfilInvalido c.perfil then ["Perfil inválido ou não informado."] else []) ++
          (if perfisComEmpresa.contains c.perfil then
             errosEmpresaDe c.empresa ++ errosCargoDe c.cargo else []) ++
          (if emailInvalido c.email et then ["Email é obrigatório e deve ser válido."] else []) ++
          (if telefoneInvalido c.telefone tt then
             ["Telefone é obrigatório e deve ser válido (formato brasileiro)."] else []) ++
          (if nomeInvalido c.nome then
             ["Nome é obrigatório e deve ter pelo menos 3 caracteres."] else []) := by
  unfold validarEtapa1 at h
  cases hE : emailTestDe c.email with
  | error e => simp [hE] at h
  | ok et =>
    simp only [hE] at h
    cases hT : telefoneTestDe c.telefone with
    | error e => simp [hT] at h
    | ok tt =>
      simp only [hT] at h
      exact ⟨et, tt, rfl, rfl, by injection h with h; rw [← h]⟩

theorem validarLead_ok_shape {c : Candidate} {l : List String}
    (h : validarLead c = .ok l) :
    ∃ l₁ pc, validarEtapa1 c = .ok l₁ ∧
      perguntaChecagemErro c.perguntaChecagem = .ok pc ∧
      l = l₁ ++ (if pc then ["Responda a pergunta de checagem corretamente."] else []) ++
          (if c.adesao ≠ .bool true then ["É necessário concordar com o Termo de Adesão."] else []) ++
          (if c.LGPD ≠ .bool true then ["É necessário autorizar o uso dos dados (LGPD)."] else []) := by
  unfold validarLead at h
  cases h1 : validarEtapa1 c with
  | error e => simp [h1] at h
  | ok l₁ =>
    simp only [h1] at h
    cases h2 : perguntaChecagemErro c.perguntaChecagem with
    | error e => simp [h2] at h
    | ok pc =>
      simp only [h2] at h
      exact ⟨l₁, pc, rfl, rfl, by injection h with h; rw [← h]⟩

theorem perfilInvalido_eq_false_iff (v : JSVal) :
    perfilInvalido v = false ↔ ∃ s, v = .str s ∧ s ∈ perfisValidos := by
  cases v <;> simp [perfilInvalido]
  case str s =>
    intro hs
    simp only [perfisValidos, List.mem_cons, List.not_mem_nil, or_false] at hs
    rcases hs with rfl | rfl | rfl | rfl <;> exact ⟨by decide, by decide⟩

theorem emailInvalido_eq_false {v : JSVal} {et : String}
    (h : emailInvalido v et = false) : truthy v = true := by
  cases v <;> simp_all [emailInvalido, truthy]

theorem telefoneInvalido_eq_false {v : JSVal} {tt : String}
    (h : telefoneInvalido v tt = false) : truthy v = true := by
  cases v <;> simp_all [telefoneInvalido, truthy]

/-- Every message produced by validarEtapa1 is one of its eight fixed
message strings. -/
theorem validarEtapa1_mem_msgs {c : Candidate} {l : List String}
    (h : validarEtapa1 c = .ok l) {m : String} (hm : m ∈ l) :
    m ∈ ["Perfil inválido ou não informado.",
         "Empresa é obrigatória para o perfil selecionado.",
         "Empresa deve ter pelo menos 3 caracteres.",
         "Cargo é obrigatório para o perfil selecionado.",
         "Cargo deve ter pelo menos 3 caracteres.",
         "Email é obrigatório e deve ser válido.",
         "Telefone é obrigatório e deve ser válido (formato brasileiro).",
         "Nome é obrigatório e deve ter pelo menos 3 caracteres."] := by
  obtain ⟨et, tt, -, -, rfl⟩ := validarEtapa1_ok_shape h
  simp only [List.mem_append] at hm
  rcases hm with ((((hA | hB) | hC) | hD) | hE)
  · rcases mem_ite_nil.mp hA with ⟨-, rfl⟩; simp
  · split at hB
    · rcases List.mem_append.mp hB with hm | hm
      · rcases mem_errosEmpresaDe hm with rfl | rfl <;> simp
      · rcases mem_errosCargoDe hm with rfl | rfl <;> simp
    · simp at hB
  · rcases mem_ite_nil.mp hC with ⟨-, rfl⟩; simp
  · rcases mem_ite_nil.mp hD with ⟨-, rfl⟩; simp
  · rcases mem_ite_nil.mp hE with ⟨-, rfl⟩; simp

/-- The handler restriction to the six stage-one fields does not change the
result of validarEtapa1, which reads only those fields. -/
theorem validarEtapa1_etapa1Subset (c : Candidate) :
    validarEtapa1 (etapa1Subset c) = validarEtapa1 c := rfl

/-- A stage-one validation with an empty error list forces truthy email and
telefone fields. -/
theorem validarEtapa1_ok_nil_truthy {c : Candidate}
    (h : validarEtapa1 c = .ok []) :
    truthy c.email = true ∧ truthy c.telefone = true := by
  obtain ⟨et, tt, hE, hT, hl⟩ := validarEtapa1_ok_shape h
  have hmail : emailInvalido c.email et = false := by
    by_contra hx
    rw [Bool.not_eq_false] at hx
    simp [hx] at hl
  have htel : telefoneInvalido c.telefone tt = false := by
    by_contra hx
    rw [Bool.not_eq_false] at hx
    simp [hx] at hl
  exact ⟨emailInvalido_eq_false hmail, telefoneInvalido_eq_false htel⟩

/-- When the profile does not require empresa and cargo, every stage-one
message is one of the four messages of the unconditional checks. -/
theorem mem_fora_empresa {c : Candidate} {l : List String}
    (h : validarEtapa1 c = .ok l)
    (hcon : perfisComEmpresa.contains c.perfil = false)
    {m : String} (hm : m ∈ l) :
    m ∈ ["Perfil inválido ou não informado.",
         "Email é obrigatório e deve ser válido.",
         "Telefone é obrigatório e deve ser válido (formato brasileiro).",
         "Nome é obrigatório e deve ter pelo menos 3 caracteres."] := by
  obtain ⟨et, tt, -, -, rfl⟩ := validarEtapa1_ok_shape h
  simp only [hcon, Bool.false_eq_true, if_false, List.mem_append,
    List.not_mem_nil, or_false, false_or] at hm
  rcases hm with ((hA | hC) | hD) | hE
  · rcases mem_ite_nil.mp hA with ⟨-, rfl⟩; simp
  · rcases mem_ite_nil.mp hC with ⟨-, rfl⟩; simp
  · rcases mem_ite_nil.mp hD with ⟨-, rfl⟩; simp
  · rcases mem_ite_nil.mp hE with ⟨-, rfl⟩; simp

theorem errosEmpresaDe_curta {s : String} (h1 : jsTrim s ≠ "")
    (h2 : (jsTrim s).length < 3) :
    errosEmpresaDe (.str s) = ["Empresa deve ter pelo menos 3 caracteres."] := by
  have hs : s ≠ "" := fun hc => h1 (by rw [hc]; rfl)
  simp [errosEmpresaDe, hs, h1, h2]

theorem errosCargoDe_curta {s : String} (h1 : jsTrim s ≠ "")
    (h2 : (jsTrim s).length < 3) :
    errosCargoDe (.str s) = ["Cargo deve ter pelo menos 3 caracteres."] := by
  have hs : s ≠ "" := fun hc => h1 (by rw [hc]; rfl)
  simp [errosCargoDe, hs, h1, h2]

/-- C3 counterexample: the profile string Estudante followed by a space
trims to an allowed value, yet validarEtapa1 produces the profile error,
because the source membership test runs on the untrimmed string. -/
theorem perfil_espaco_rejeitado_cex :
    jsTrim "Estudante " = "Estudante" ∧ "Estudante" ∈ perfisValidos ∧
    validarEtapa1 { corpoVazio with perfil := .str "Estudante " } =
      .ok ["Perfil inválido ou não informado.",
           "Email é obrigatório e deve ser válido.",
           "Telefone é obrigatório e deve ser válido (formato brasileiro).",
           "Nome é obrigatório e deve ter pelo menos 3 caracteres."] :=
  ⟨by decide, by decide, by rfl⟩

/-- C3 (amended): validarEtapa1 produces the profile error exactly when the
profile field is not a string equal, without trimming, to one of the four
allowed values; the trim in the source only feeds the emptiness test. -/
theorem erro_perfil_sem_trim (c : Candidate) (l : List String)
    (h : validarEtapa1 c = .ok l) :
    ("Perfil inválido ou não informado." ∈ l) ↔
      ¬ ∃ s, c.perfil = .str s ∧ s ∈ perfisValidos := by
  obtain ⟨et, tt, -, -, rfl⟩ := validarEtapa1_ok_shape h
  constructor
  · intro hm hex
    have hf : perfilInvalido c.perfil = false := (perfilInvalido_eq_false_iff _).mpr hex
    simp only [hf, Bool.false_eq_true, if_false, List.nil_append,
      List.mem_append] at hm
    rcases hm with ((hB | hC) | hD) | hE
    · split at hB
      · rcases List.mem_append.mp hB with hx | hx
        · rcases mem_errosEmpresaDe hx with h' | h' <;> exact absurd h' (by decide)
        · rcases mem_errosCargoDe hx with h' | h' <;> exact absurd h' (by decide)
      · simp at hB
    · rcases mem_ite_nil.mp hC with ⟨-, h'⟩; exact absurd h' (by decide)
    · rcases mem_ite_nil.mp hD with ⟨-, h'⟩; exact absurd h' (by decide)
    · rcases mem_ite_nil.mp hE with ⟨-, h'⟩; exact absurd h' (by decide)
  · intro hex
    have ht : perfilInvalido c.perfil = true := by
      cases hb : perfilInvalido c.perfil with
      | false => exact absurd ((perfilInvalido_eq_false_iff _).mp hb) hex
      | true => rfl
    simp [ht]

/-- C3 witness: the valid payload has profile Estudante, so the iff applied
there states that the profile error is absent from the empty error list. -/
theorem erro_perfil_sem_trim_witness :
    ("Perfil inválido ou não informado." ∈ ([] : List String)) ↔
      ¬ ∃ s, JSVal.str "Estudante" = JSVal.str s ∧ s ∈ perfisValidos :=
  erro_perfil_sem_trim corpoEtapa1Valido [] (by rfl)

/-- C4 counterexample: with profile Executivo and empresa and cargo the
one-space string (trimmed length zero, hence below three), the mandatory
message fires and the length message does not, against the claim that every
string of trimmed length below three yields exactly one length error with
the presence check silent. -/
theorem empresa_trim_vazia_cex :
    (jsTrim " ").length < 3 ∧ (" " : String) ≠ "" ∧
    validarEtapa1 { corpoVazio with perfil := .str "Executivo", empresa := .str " ", cargo := .str " " } =
      .ok ["Empresa é obrigatória para o perfil selecionado.",
           "Cargo é obrigatório para o perfil selecionado.",
           "Email é obrigatório e deve ser válido.",
           "Telefone é obrigatório e deve ser válido (formato brasileiro).",
           "Nome é obrigatório e deve ter pelo menos 3 caracteres."] ∧
    "Empresa deve ter pelo menos 3 caracteres." ∉
      ["Empresa é obrigatória para o perfil selecionado.",
       "Cargo é obrigatório para o perfil selecionado.",
       "Email é obrigatório e deve ser válido.",
       "Telefone é obrigatório e deve ser válido (formato brasileiro).",
       "Nome é obrigatório e deve ter pelo menos 3 caracteres."] :=
  ⟨by decide, by decide, by rfl, by decide⟩

/-- C4 (amended): without a business profile no empresa or cargo message
ever appears; with a business profile and empresa and cargo strings whose
trimmed value is nonempty and shorter than three characters, each field
yields its length message exactly once and its mandatory message not at
all. -/
theorem empresa_cargo_condicionais (c : Candidate) (l : List String)
    (h : validarEtapa1 c = .ok l) :
    (c.perfil ∉ perfisComEmpresa →
      "Empresa é obrigatória para o perfil selecionado." ∉ l ∧
      "Empresa deve ter pelo menos 3 caracteres." ∉ l ∧
      "Cargo é obrigatório para o perfil selecionado." ∉ l ∧
      "Cargo deve ter pelo menos 3 caracteres." ∉ l) ∧
    (c.perfil ∈ perfisComEmpresa →
      ∀ se sc, c.empresa = .str se → c.cargo = .str sc →
        jsTrim se ≠ "" → (jsTrim se).length < 3 →
        jsTrim sc ≠ "" → (jsTrim sc).length < 3 →
        l.count "Empresa deve ter pelo menos 3 caracteres." = 1 ∧
        "Empresa é obrigatória para o perfil selecionado." ∉ l ∧
        l.count "Cargo deve ter pelo menos 3 caracteres." = 1 ∧
        "Cargo é obrigatório para o perfil selecionado." ∉ l) := by
  constructor
  · intro hfora
    have hcon : perfisComEmpresa.contains c.perfil = false := by
      cases hb : perfisComEmpresa.contains c.perfil with
      | false => rfl
      | true => exact absurd (List.elem_iff.mp hb) hfora
    refine ⟨fun hm => ?_, fun hm => ?_, fun hm => ?_, fun hm => ?_⟩ <;>
      exact absurd (mem_fora_empresa h hcon hm) (by decide)
  · intro hdentro se sc hse hsc h1 h2 h3 h4
    obtain ⟨et, tt, -, -, rfl⟩ := validarEtapa1_ok_shape h
    have hcon : perfisComEmpresa.contains c.perfil = true := List.elem_iff.mpr hdentro
    rw [hse] at *
    rw [hsc] at *
    simp only [hcon, if_true, errosEmpresaDe_curta h1 h2, errosCargoDe_curta h3 h4]
    refine ⟨?_, ?_, ?_, ?_⟩
    · simp only [List.count_append]
      rcases hb1 : perfilInvalido c.perfil <;>
      rcases hb2 : emailInvalido c.email et <;>
      rcases hb3 : telefoneInvalido c.telefone tt <;>
      rcases hb4 : nomeInvalido c.nome <;> simp [List.count_cons]
    · intro hm
      simp only [List.mem_append] at hm
      rcases hm with (((hA | hB) | hC) | hD) | hE
      · rcases mem_ite_nil.mp hA with ⟨-, h'⟩; exact absurd h' (by decide)
      · rcases hB with hx | hx <;> simp_all
      · rcases mem_ite_nil.mp hC with ⟨-, h'⟩; exact absurd h' (by decide)
      · rcases mem_ite_nil.mp hD with ⟨-, h'⟩; exact absurd h' (by decide)
      · rcases mem_ite_nil.mp hE with ⟨-, h'⟩; exact absurd h' (by decide)
    · simp only [List.count_append]
      rcases hb1 : perfilInvalido c.perfil <;>
      rcases hb2 : emailInvalido c.email et <;>
      rcases hb3 : telefoneInvalido c.telefone tt <;>
      rcases hb4 : nomeInvalido c.nome <;> simp [List.count_cons]
    · intro hm
      simp only [List.mem_append] at hm
      rcases hm with (((hA | hB) | hC) | hD) | hE
      · rcases mem_ite_nil.mp hA with ⟨-, h'⟩; exact absurd h' (by decide)
      · rcases hB with hx | hx <;> simp_all
      · rcases mem_ite_nil.mp hC with ⟨-, h'⟩; exact absurd h' (by decide)
      · rcases mem_ite_nil.mp hD with ⟨-, h'⟩; exact absurd h' (by decide)
      · rcases mem_ite_nil.mp hE with ⟨-, h'⟩; exact absurd h' (by decide)

/-- C4 witness: on the empty body (profile undefined) no empresa or cargo
message appears, and with profile Executivo and the two-character strings
ab and xy each field yields its length message exactly once with the
mandatory message absent. -/
theorem empresa_cargo_condicionais_witness :
    ("Empresa é obrigatória para o perfil selecionado." ∉
       ["Perfil inválido ou não informado.",
        "Email é obrigatório e deve ser válido.",
        "Telefone é obrigatório e deve ser válido (formato brasileiro).",
        "Nome é obrigatório e deve ter pelo menos 3 caracteres."] ∧
     "Empresa deve ter pelo menos 3 caracteres." ∉
       ["Perfil inválido ou não informado.",
        "Email é obrigatório e deve ser válido.",
        "Telefone é obrigatório e deve ser válido (formato brasileiro).",
        "Nome é obrigatório e deve ter pelo menos 3 caracteres."] ∧
     "Cargo é obrigatório para o perfil selecionado." ∉
       ["Perfil inválido ou não informado.",
        "Email é obrigatório e deve ser válido.",
        "Telefone é obrigatório e deve ser válido (formato brasileiro).",
        "Nome é obrigatório e deve ter pelo menos 3 caracteres."] ∧
     "Cargo deve ter pelo menos 3 caracteres." ∉
       ["Perfil inválido ou não informado.",
        "Email é obrigatório e deve ser válido.",
        "Telefone é obrigatório e deve ser válido (formato brasileiro).",
        "Nome é obrigatório e deve ter pelo menos 3 caracteres."]) ∧
    (["Empresa deve ter pelo menos 3 caracteres.",
      "Cargo deve ter pelo menos 3 caracteres.",
      "Email é obrigatório e deve ser válido.",
      "Telefone é obrigatório e deve ser válido (formato brasileiro).",
      "Nome é obrigatório e deve ter pelo menos 3 caracteres."].count
        "Empresa deve ter pelo menos 3 caracteres." = 1 ∧
     "Empresa é obrigatória para o perfil selecionado." ∉
       ["Empresa deve ter pelo menos 3 caracteres.",
        "Cargo deve ter pelo menos 3 caracteres.",
        "Email é obrigatório e deve ser válido.",
        "Telefone é obrigatório e deve ser válido (formato brasileiro).",
        "Nome é obrigatório e deve ter pelo menos 3 caracteres."] ∧
     ["Empresa deve ter pelo menos 3 caracteres.",
      "Cargo deve ter pelo menos 3 caracteres.",
      "Email é obrigatório e deve ser válido.",
      "Telefone é obrigatório e deve ser válido (formato brasileiro).",
      "Nome é obrigatório e deve ter pelo menos 3 caracteres."].count
        "Cargo deve ter pelo menos 3 caracteres." = 1 ∧
     "Cargo é obrigatório para o perfil selecionado." ∉
       ["Empresa deve ter pelo menos 3 caracteres.",
        "Cargo deve ter pelo menos 3 caracteres.",
        "Email é obrigatório e deve ser válido.",
        "Telefone é obrigatório e deve ser válido (formato brasileiro).",
        "Nome é obrigatório e deve ter pelo menos 3 caracteres."]) :=
  ⟨(empresa_cargo_condicionais corpoVazio _ (by rfl)).1 (by decide),
   (empresa_cargo_condicionais
      { corpoVazio with perfil := .str "Executivo", empresa := .str "ab", cargo := .str "xy" }
      _ (by rfl)).2 (by decide) "ab" "xy" rfl rfl
      (by decide) (by decide) (by decide) (by decide)⟩

/-- C5: on every candidate on which it returns, validarLead returns the
whole validarEtapa1 list first, extended only with stage-two messages. -/
theorem validarLead_extensao (c : Candidate) (l : List String)
    (h : validarLead c = .ok l) :
    ∃ l₁ t, validarEtapa1 c = .ok l₁ ∧ l = l₁ ++ t ∧
      ∀ m ∈ t, m ∈ ["Responda a pergunta de checagem corretamente.",
                    "É necessário concordar com o Termo de Adesão.",
                    "É necessário autorizar o uso dos dados (LGPD)."] := by
  obtain ⟨l₁, pc, h1, h2, rfl⟩ := validarLead_ok_shape h
  refine ⟨l₁,
    (if pc then ["Responda a pergunta de checagem corretamente."] else []) ++
      ((if c.adesao ≠ .bool true then ["É necessário concordar com o Termo de Adesão."] else []) ++
        (if c.LGPD ≠ .bool true then ["É necessário autorizar o uso dos dados (LGPD)."] else [])),
    h1, by simp [List.append_assoc], ?_⟩
  intro m hm
  rcases List.mem_append.mp hm with hm | hm
  · rcases mem_ite_nil.mp hm with ⟨-, rfl⟩; simp
  · rcases List.mem_append.mp hm with hm | hm
    · rcases mem_ite_nil_prop.mp hm with ⟨-, rfl⟩; simp
    · rcases mem_ite_nil_prop.mp hm with ⟨-, rfl⟩; simp

/-- C5 witness: on the empty body the full validation returns the four
stage-one messages followed by the three stage-two messages. -/
theorem validarLead_extensao_witness :
    ∃ l₁ t, validarEtapa1 corpoVazio = .ok l₁ ∧
      ["Perfil inválido ou não informado.",
       "Email é obrigatório e deve ser válido.",
       "Telefone é obrigatório e deve ser válido (formato brasileiro).",
       "Nome é obrigatório e deve ter pelo menos 3 caracteres.",
       "Responda a pergunta de checagem corretamente.",
       "É necessário concordar com o Termo de Adesão.",
       "É necessário autorizar o uso dos dados (LGPD)."] = l₁ ++ t ∧
      ∀ m ∈ t, m ∈ ["Responda a pergunta de checagem corretamente.",
                    "É necessário concordar com o Termo de Adesão.",
                    "É necessário autorizar o uso dos dados (LGPD)."] :=
  validarLead_extensao corpoVazio _ (by rfl)

/-- C6: validarLead produces the adesao message exactly when adesao is not
the strict boolean true, and the LGPD message exactly when LGPD is not the
strict boolean true. -/
theorem consentimentos_estritos (c : Candidate) (l : List String)
    (h : validarLead c = .ok l) :
    (("É necessário concordar com o Termo de Adesão." ∈ l) ↔ c.adesao ≠ .bool true) ∧
    (("É necessário autorizar o uso dos dados (LGPD)." ∈ l) ↔ c.LGPD ≠ .bool true) := by
  obtain ⟨l₁, pc, h1, h2, rfl⟩ := validarLead_ok_shape h
  constructor
  · constructor
    · intro hm
      rcases List.mem_append.mp hm with hm | hm
      · rcases List.mem_append.mp hm with hm | hm
        · rcases List.mem_append.mp hm with hm | hm
          · exact absurd (validarEtapa1_mem_msgs h1 hm) (by decide)
          · rcases mem_ite_nil.mp hm with ⟨-, h'⟩; exact absurd h' (by decide)
        · exact (mem_ite_nil_prop.mp hm).1
      · rcases mem_ite_nil_prop.mp hm with ⟨-, h'⟩; exact absurd h' (by decide)
    · intro hne
      refine List.mem_append.mpr (.inl (List.mem_append.mpr (.inr ?_)))
      rw [if_pos hne]; exact List.mem_singleton.mpr rfl
  · constructor
    · intro hm
      rcases List.mem_append.mp hm with hm | hm
      · rcases List.mem_append.mp hm with hm | hm
        · rcases List.mem_append.mp hm with hm | hm
          · exact absurd (validarEtapa1_mem_msgs h1 hm) (by decide)
          · rcases mem_ite_nil.mp hm with ⟨-, h'⟩; exact absurd h' (by decide)
        · rcases mem_ite_nil_prop.mp hm with ⟨-, h'⟩; exact absurd h' (by decide)
      · exact (mem_ite_nil_prop.mp hm).1
    · intro hne
      refine List.mem_append.mpr (.inr ?_)
      rw [if_pos hne]; exact List.mem_singleton.mpr rfl

/-- C6 witness: the truthy string true and the truthy number one both fail
the strict checks on the empty body. -/
theorem consentimentos_estritos_witness :
    (("É necessário concordar com o Termo de Adesão." ∈
       ["Perfil inválido ou não informado.",
        "Email é obrigatório e deve ser válido.",
        "Telefone é obrigatório e deve ser válido (formato brasileiro).",
        "Nome é obrigatório e deve ter pelo menos 3 caracteres.",
        "Responda a pergunta de checagem corretamente.",
        "É necessário concordar com o Termo de Adesão.",
        "É necessário autorizar o uso dos dados (LGPD)."]) ↔
      JSVal.str "true" ≠ JSVal.bool true) ∧
    (("É necessário autorizar o uso dos dados (LGPD)." ∈
       ["Perfil inválido ou não informado.",
        "Email é obrigatório e deve ser válido.",
        "Telefone é obrigatório e deve ser válido (formato brasileiro).",
        "Nome é obrigatório e deve ter pelo menos 3 caracteres.",
        "Responda a pergunta de checagem corretamente.",
        "É necessário concordar com o Termo de Adesão.",
        "É necessário autorizar o uso dos dados (LGPD)."]) ↔
      JSVal.num 1 ≠ JSVal.bool true) :=
  consentimentos_estritos { corpoVazio with adesao := .str "true", LGPD := .num 1 } _ (by rfl)

/-- C7 (code bug): both validators throw a TypeError, instead of returning
an error list, on a truthy non-string email (the trim call of source line
100 runs before the typeof guard), and validarLead also throws on a truthy
non-string check question (source line 129 has no typeof guard at all). -/
theorem validadores_lancam_typeerror :
    validarEtapa1 { corpoEtapa1Valido with email := .num 5 } = .error () ∧
    validarLead { corpoCompletoValido with email := .num 5 } = .error () ∧
    validarLead { corpoCompletoValido with perguntaChecagem := .num 7 } = .error () :=
  ⟨rfl, rfl, rfl⟩

/-- C9 counterexample: no registered route carries the alias path
/validar-etapa-1; source line 251 is the only pre-check registration. -/
theorem alias_validar_etapa_1_ausente_cex :
    "/validar-etapa-1" ∉ appRoutes.map Route.path := by decide

/-- C9 (amended): the application registers the pre-check handler exactly
once, at POST /leads/validar-etapa1, and registers no /validar-etapa-1
alias. -/
theorem rota_validar_etapa1_unica :
    appRoutes.filter (fun r => r.handler = .hValidarEtapa1) =
      [⟨"POST", "/leads/validar-etapa1", .hValidarEtapa1⟩] ∧
    "/validar-etapa-1" ∉ appRoutes.map Route.path :=
  ⟨by rfl, by decide⟩

/-- C8: the delete route answers 400 on a structurally invalid identifier
with the store untouched and without any store access (the outcome is the
same even when every store operation would throw), 404 when a well-formed
identifier matches nothing, and otherwise removes the matching record and
returns its snapshot. -/
theorem remover_lead_casos (id : String) (store : List (String × StoredLead)) (dbOk : Bool) :
    (objectIdIsValid id = false →
      removerLead id store dbOk = (.badRequest "ID inválido", store)) ∧
    (objectIdIsValid id = true → dbOk = true →
      store.find? (fun q => q.1 = id) = none →
      removerLead id store dbOk = (.notFound "Lead não encontrado", store)) ∧
    (∀ p, objectIdIsValid id = true → dbOk = true →
      store.find? (fun q => q.1 = id) = some p →
      removerLead id store dbOk =
        (.okDeleted "Lead removido com sucesso" p.2, store.eraseP (fun q => q.1 = id))) := by
  refine ⟨fun h => ?_, fun h1 h2 h3 => ?_, fun p h1 h2 h3 => ?_⟩
  · simp [removerLead, h]
  · simp [removerLead, h1, h2, h3]
  · simp [removerLead, h1, h2, h3]

/-- C8 witness: the malformed identifier abc is rejected even against a
failing store; a well-formed hexadecimal identifier yields 404 on the empty
store and deletes the one matching record otherwise. -/
theorem remover_lead_casos_witness :
    removerLead "abc" [] false = (.badRequest "ID inválido", []) ∧
    removerLead "aaaaaaaaaaaaaaaaaaaaaaaa" [] true = (.notFound "Lead não encontrado", []) ∧
    removerLead "aaaaaaaaaaaaaaaaaaaaaaaa" [("aaaaaaaaaaaaaaaaaaaaaaaa", leadDuplicado)] true =
      (.okDeleted "Lead removido com sucesso" leadDuplicado, []) := by
  refine ⟨(remover_lead_casos "abc" [] false).1 (by decide),
    (remover_lead_casos "aaaaaaaaaaaaaaaaaaaaaaaa" [] true).2.1 (by decide) rfl (by rfl), ?_⟩
  exact (remover_lead_casos "aaaaaaaaaaaaaaaaaaaaaaaa"
    [("aaaaaaaaaaaaaaaaaaaaaaaa", leadDuplicado)] true).2.2
    ("aaaaaaaaaaaaaaaaaaaaaaaa", leadDuplicado) (by decide) rfl (by rfl)

/-- C2: when field validation fails, the pre-check answers 400 with exactly
those errors for every store state, including a failing one, so no duplicate
lookup can have run; and creation answers 400 with the full-validation
errors leaving the store unchanged, for a working and a failing store
alike. -/
theorem validacao_falha_sem_acesso (body : Candidate) :
    (∀ erros, validarEtapa1 (etapa1Subset body) = .ok erros → erros ≠ [] →
      ∀ db, handleValidarEtapa1 body db = .ok (.badRequest erros)) ∧
    (∀ erros, validarLead body = .ok erros → erros ≠ [] →
      ∀ store dbOk now, criarLead body store dbOk now =
        .ok (.badRequest "Erro de validação" erros, store)) := by
  constructor
  · intro erros h hne db
    have hpos : 0 < erros.length := List.length_pos.mpr hne
    simp [handleValidarEtapa1, h, hpos]
  · intro erros h hne store dbOk now
    have hpos : 0 < erros.length := List.length_pos.mpr hne
    simp [criarLead, h, hpos]

/-- C2 witness: the empty body fails validation; the pre-check answers 400
against the failing store, and creation returns 400 with the store kept
empty. -/
theorem validacao_falha_sem_acesso_witness :
    handleValidarEtapa1 corpoVazio (.error ()) =
      .ok (.badRequest ["Perfil inválido ou não informado.",
        "Email é obrigatório e deve ser válido.",
        "Telefone é obrigatório e deve ser válido (formato brasileiro).",
        "Nome é obrigatório e deve ter pelo menos 3 caracteres."]) ∧
    criarLead corpoVazio [] true 0 =
      .ok (.badRequest "Erro de validação"
        ["Perfil inválido ou não informado.",
         "Email é obrigatório e deve ser válido.",
         "Telefone é obrigatório e deve ser válido (formato brasileiro).",
         "Nome é obrigatório e deve ter pelo menos 3 caracteres.",
         "Responda a pergunta de checagem corretamente.",
         "É necessário concordar com o Termo de Adesão.",
         "É necessário autorizar o uso dos dados (LGPD)."], []) :=
  ⟨(validacao_falha_sem_acesso corpoVazio).1 _ (by rfl) (by decide) _,
   (validacao_falha_sem_acesso corpoVazio).2 _ (by rfl) (by decide) [] true 0⟩

/-- C1: once the stage-one fields pass validation (which forces truthy email
and telefone), a failing store makes the pre-check answer the dedicated 500
service error, never a validation error; on a working store each duplicate
lookup contributes its message independently of the other, and any found
duplicate yields the 400 validation-error list. -/
theorem duplicidade_independente (body : Candidate) (store : List StoredLead)
    (h : validarEtapa1 (etapa1Subset body) = .ok []) :
    handleValidarEtapa1 body (.error ()) =
      .ok (.serviceError "Erro ao validar duplicidade. Tente novamente mais tarde.") ∧
    handleValidarEtapa1 body (.ok store) =
      .ok (
        let errosDup :=
          (if truthy body.email && (store.find? (fun l => l.email = body.email)).isSome
           then ["Este e-mail já está participando da promoção."] else []) ++
          (if truthy body.telefone && (store.find? (fun l => l.telefone = body.telefone)).isSome
           then ["Este telefone já está cadastrado."] else [])
        if 0 < errosDup.length then .badRequest errosDup
        else .okMsg "Etapa 1 válida. Pode prosseguir.") := by
  have hte : truthy body.email = true := (validarEtapa1_ok_nil_truthy h).1
  have htt : truthy body.telefone = true := (validarEtapa1_ok_nil_truthy h).2
  constructor
  · simp [handleValidarEtapa1, h, validacaoDuplicidade, findOne, hte]
  · rcases hfe : store.find? (fun l => l.email = body.email) with _ | le <;>
      rcases hft : store.find? (fun l => l.telefone = body.telefone) with _ | lt <;>
      simp [handleValidarEtapa1, h, validacaoDuplicidade, findOne, hte, htt, hfe, hft]

/-- C1 witness: on the valid stage-one payload a failing store yields the
500 service error, while a store holding the same raw email yields the 400
email-duplicate error. -/
theorem duplicidade_independente_witness :
    handleValidarEtapa1 corpoEtapa1Valido (.error ()) =
      .ok (.serviceError "Erro ao validar duplicidade. Tente novamente mais tarde.") ∧
    handleValidarEtapa1 corpoEtapa1Valido (.ok [leadDuplicado]) =
      .ok (.badRequest ["Este e-mail já está participando da promoção."]) := by
  have h := duplicidade_independente corpoEtapa1Valido [leadDuplicado] (by rfl)
  exact ⟨h.1, by simpa using h.2⟩

/-- C10: an accepted creation stores every submitted field exactly as sent,
with only the boolean coercion of the consents and the added timestamp; and
because the duplicate lookups compare the raw submitted values, a pre-check
against a store whose records differ from the submission in email or
telefone (for instance only by case or surrounding whitespace) reports
success. -/
theorem criacao_sem_normalizacao (body : Candidate) (store : List StoredLead) (now : Nat)
    (h : validarLead body = .ok []) :
    (criarLead body store true now =
       .ok (.created (novoLead body now), store ++ [novoLead body now]) ∧
     (novoLead body now).nome = body.nome ∧
     (novoLead body now).perfil = body.perfil ∧
     (novoLead body now).empresa = body.empresa ∧
     (novoLead body now).cargo = body.cargo ∧
     (novoLead body now).email = body.email ∧
     (novoLead body now).telefone = body.telefone ∧
     (novoLead body now).perguntaChecagem = body.perguntaChecagem ∧
     (novoLead body now).perguntaGeral = body.perguntaGeral ∧
     (novoLead body now).adesao = truthy body.adesao ∧
     (novoLead body now).LGPD = truthy body.LGPD ∧
     (novoLead body now).dataCadastro = now) ∧
    (∀ outros : List StoredLead,
      (∀ l ∈ outros, l.email ≠ body.email) →
      (∀ l ∈ outros, l.telefone ≠ body.telefone) →
      handleValidarEtapa1 body (.ok outros) =
        .ok (.okMsg "Etapa 1 válida. Pode prosseguir.")) := by
  have h1 : validarEtapa1 body = .ok [] := by
    obtain ⟨l₁, pc, ha, hb, hl⟩ := validarLead_ok_shape h
    have h0 := hl.symm
    simp only [List.append_eq_nil] at h0
    rw [h0.1.1.1] at ha
    exact ha
  constructor
  · exact ⟨by simp [criarLead, h], rfl, rfl, rfl, rfl, rfl, rfl, rfl, rfl, rfl, rfl, rfl⟩
  · intro outros hne hnt
    have hsub : validarEtapa1 (etapa1Subset body) = .ok [] := by
      rw [validarEtapa1_etapa1Subset]; exact h1
    have hte : truthy body.email = true := (validarEtapa1_ok_nil_truthy hsub).1
    have htt : truthy body.telefone = true := (validarEtapa1_ok_nil_truthy hsub).2
    have hfe : outros.find? (fun l => l.email = body.email) = none :=
      List.find?_eq_none.mpr (by intro x hx; simpa using hne x hx)
    have hft : outros.find? (fun l => l.telefone = body.telefone) = none :=
      List.find?_eq_none.mpr (by intro x hx; simpa using hnt x hx)
    simp [handleValidarEtapa1, hsub, validacaoDuplicidade, findOne, hte, htt, hfe, hft]

/-- C10 witness: the accepted end-to-end payload is stored verbatim, and a
stored lead whose email differs only in case and whose telefone differs
only in leading whitespace does not block the pre-check. -/
theorem criacao_sem_normalizacao_witness :
    criarLead corpoCompletoValido [] true 0 =
      .ok (.created (novoLead corpoCompletoValido 0), [novoLead corpoCompletoValido 0]) ∧
    handleValidarEtapa1 corpoCompletoValido (.ok [leadCaixaAlta]) =
      .ok (.okMsg "Etapa 1 válida. Pode prosseguir.") := by
  have h := criacao_sem_normalizacao corpoCompletoValido [] 0 (by rfl)
  exact ⟨by simpa using h.1.1, h.2 [leadCaixaAlta] (by decide) (by decide)⟩

end LeadAPI
